import Mathlib

/-!
Shallow embedding of the IoT device directory and status API (src/main.py).

The relational store is modelled as four lists of rows (tables `systems`,
`devices`, `device_status`, `device_status_history`).  SQL timestamps are
modelled as integers counting seconds, and `NOW()` is an explicit `now`
parameter of each handler that mentions it.  Each HTTP handler becomes a
Lean function from the database state (plus its path/body parameters) to a
result; handlers that can raise `HTTPException` or an unhandled Python
exception return a `HandlerResult`, and handlers whose connection-release
behaviour matters additionally return a `Bool` recording whether
`conn.close()` ran before the handler returned or raised.
-/

namespace IotBackend

/-- Row of the `systems` table: `id` (primary key), `name`, `description`. -/
structure SystemRow where
  id : Int
  name : String
  description : String
deriving DecidableEq

/-- Row of the `devices` table.  The `is_use` column is never set by the
`INSERT` in `add_device` (the schema default applies); it is therefore
modelled as an `Option Bool`, with `none` for a value this code never chose. -/
structure DeviceRow where
  id : Int
  system_id : Int
  device_name : String
  ip_address : Option String
  facility_name : Option String
  port : Option Int
  is_lora : Bool
  is_use : Option Bool
deriving DecidableEq

/-- Row of the `device_status` table, populated by an external poller and
only read by this service. -/
structure DeviceStatusRow where
  device_id : Int
  ping_status : Option String
  ssh_status : Option String
  last_data_time : Option Int
deriving DecidableEq

/-- Row of the `device_status_history` table. -/
structure HistoryRow where
  checked_at : Int
  total_devices : Int
  active_devices : Int
  inactive_devices : Int
deriving DecidableEq

/-- The database state visible to one request. -/
structure DB where
  systems : List SystemRow
  devices : List DeviceRow
  device_status : List DeviceStatusRow
  device_status_history : List HistoryRow
deriving DecidableEq

/-- Outcome of a handler: a value, a raised `HTTPException` (status code and
detail string), or an unhandled Python exception (`fault`). -/
inductive HandlerResult (α : Type) where
  | ok (value : α)
  | httpError (status : Nat) (detail : String)
  | fault (exc : String)
deriving DecidableEq

/-- The `ok` payload of a handler result, if any. -/
def HandlerResult.okValue : HandlerResult α → Option α
  | .ok v => some v
  | _ => none

/-- Request body of `POST /devices/` and `PUT /devices/{device_id}`
(pydantic model `DeviceCreate` in src/main.py, lines 15-21).  Note that the
model has a field `is_lora` and no field `is_LoRa`. -/
structure DeviceCreate where
  system_id : Int
  device_name : String
  ip_address : Option String := none
  facility_name : Option String := none
  port : Option Int := none
  is_lora : Bool := false
deriving DecidableEq

/-- Python `str.strip()`: remove leading and trailing whitespace, modelled
structurally over the string's character list. -/
def pyStrip (s : String) : String :=
  ⟨((s.data.dropWhile Char.isWhitespace).reverse.dropWhile Char.isWhitespace).reverse⟩

/-- src/main.py line 94: `device.ip_address if device.ip_address and
device.ip_address.strip() else None`.  Python truthiness of a string is
being nonempty; note the kept value is the original, unstripped string. -/
def normalizeIp : Option String → Option String
  | none => none
  | some s => if s ≠ "" ∧ pyStrip s ≠ "" then some s else none

/-- The row inserted by `add_device` (src/main.py lines 100-104): the INSERT
names every column except `is_use`, whose stored value is the schema default
(`none` here), and `id` is generated by the database (`RETURNING id`),
modelled by the explicit `newId` argument. -/
def mkInsertedRow (newId : Int) (device : DeviceCreate) : DeviceRow :=
  { id := newId
    system_id := device.system_id
    device_name := device.device_name
    ip_address := normalizeIp device.ip_address
    facility_name := device.facility_name
    port := device.port
    is_lora := device.is_lora
    is_use := none }

/-- `POST /devices/` (src/main.py lines 88-115, `add_device`).  The embedded
store enforces no SQL constraints, so the `except` branch (rollback and a 400
carrying the raw driver error text, lines 108-110) is unreachable here; on
the modelled path the handler inserts the row, closes the connection in the
`finally` block, and returns the generated id with its success message. -/
def add_device (db : DB) (newId : Int) (device : DeviceCreate) :
    HandlerResult (Int × String) × Bool × DB :=
  (.ok (newId, "Device added successfully"), true,
   { db with devices := db.devices ++ [mkInsertedRow newId device] })

/-- Python truthiness of an optional string (`if device.facility_name:`). -/
def truthyOptStr : Option String → Bool
  | none => false
  | some s => s ≠ ""

/-- Python truthiness of an optional integer (`if device.port:`). -/
def truthyOptInt : Option Int → Bool
  | none => false
  | some n => n ≠ 0

/-- The `update_fields` list built by `update_device` (src/main.py lines
130-147) before the handler reaches line 148: column names whose body field
passed the code's truthiness / non-absence test. -/
def updateFieldNames (device : DeviceCreate) : List String :=
  (if device.system_id ≠ 0 then ["system_id"] else []) ++
  (if device.device_name ≠ "" then ["device_name"] else []) ++
  (if device.ip_address ≠ none then ["ip_address"] else []) ++
  (if truthyOptStr device.facility_name then ["facility_name"] else []) ++
  (if truthyOptInt device.port then ["port"] else [])

/-- `PUT /devices/{device_id}` (src/main.py lines 119-170, `update_device`).
If no row matches `device_id`, the handler closes the cursor and connection
and raises 404 "Device not found" (lines 124-128).  Otherwise it builds
`update_fields` (lines 130-147) and then, at line 148, evaluates
`device.is_LoRa` — but the `DeviceCreate` model has no attribute `is_LoRa`
(its field is `is_lora`), so the attribute access raises `AttributeError`
before any `UPDATE` statement and before `conn.close()`: the handler faults
with the connection still open and the table unchanged, on every request
that passes the existence check. -/
def update_device (db : DB) (device_id : Int) (device : DeviceCreate) :
    HandlerResult String × Bool × DB :=
  match db.devices.find? (fun d => d.id == device_id) with
  | none => (.httpError 404 "Device not found", true, db)
  | some _ =>
      let _update_fields := updateFieldNames device
      (.fault "AttributeError", false, db)

/-- `DELETE /devices/{device_id}` (src/main.py lines 173-194,
`delete_device`).  404 (with the connection closed first) when no row
matches; otherwise the row is deleted and the connection closed in the
`finally` block. -/
def delete_device (db : DB) (device_id : Int) : HandlerResult String × Bool × DB :=
  match db.devices.find? (fun d => d.id == device_id) with
  | none => (.httpError 404 "Device not found", true, db)
  | some _ =>
      (.ok (s!"Device {device_id} deleted successfully"), true,
       { db with devices := db.devices.filter (fun d => d.id ≠ device_id) })

/-- `FROM devices d JOIN systems s ON d.system_id = s.id` (inner join). -/
def innerJoinSystems (db : DB) : List (DeviceRow × SystemRow) :=
  db.devices.flatMap fun d =>
    (db.systems.filter fun s => s.id == d.system_id).map fun s => (d, s)

/-- One entry of the `GET /devices/` response (src/main.py lines 215-228).
The SQL selects `s.id, s.name, s.description, d.*`; the response dict sets
`"system_id"` from the selected `s.id` and `"system_name"` from the selected
`s.description` (line 218). -/
structure DevicesEntry where
  system_id : Int
  system_name : String
  device_name : String
  facility_name : Option String
  ip : Option String
  port : Option Int
  is_lora : Bool
  is_use : Option Bool
deriving DecidableEq

/-- The dict comprehension of `get_devices` (src/main.py lines 215-228)
applied to one joined row. -/
def shapeDevicesEntry : DeviceRow × SystemRow → DevicesEntry
  | (d, s) =>
    { system_id := s.id
      system_name := s.description
      device_name := d.device_name
      facility_name := d.facility_name
      ip := d.ip_address
      port := d.port
      is_lora := d.is_lora
      is_use := d.is_use }

/-- Response shape of `GET /devices/`. -/
structure DevicesResp where
  total : Nat
  devices : List DevicesEntry
deriving DecidableEq

/-- `GET /devices/` (src/main.py lines 199-229, `get_devices`). -/
def get_devices (db : DB) : DevicesResp :=
  let rows := innerJoinSystems db
  { total := rows.length, devices := rows.map shapeDevicesEntry }

/-- `FROM devices d JOIN systems s ON d.system_id = s.id LEFT JOIN
device_status ds ON d.id = ds.device_id`: each device/system pair is paired
with its matching status rows, or with `none` when no status row matches. -/
def statusJoin (db : DB) : List (DeviceRow × SystemRow × Option DeviceStatusRow) :=
  db.devices.flatMap fun d =>
    (db.systems.filter fun s => s.id == d.system_id).flatMap fun s =>
      match db.device_status.filter (fun ds => ds.device_id == d.id) with
      | [] => [(d, s, none)]
      | ms => ms.map fun ds => (d, s, some ds)

/-- One entry of the `GET /last` response (src/main.py lines 296-310). -/
structure LastEntry where
  device_name : String
  system_id : Int
  system_name : String
  ip_address : Option String
  is_lora : Bool
  ping_status : Option String
  ssh_status : Option String
  last_data_time : Option Int
deriving DecidableEq

/-- The dict comprehension of `get_all_devices_status` (src/main.py lines
296-310) applied to one joined row: LoRa devices get `None` for
`ip_address`, `ping_status` and `ssh_status`. -/
def shapeLastEntry : DeviceRow × SystemRow × Option DeviceStatusRow → LastEntry
  | (d, s, ds) =>
    { device_name := d.device_name
      system_id := d.system_id
      system_name := s.name
      ip_address := if d.is_lora then none else d.ip_address
      is_lora := d.is_lora
      ping_status := if d.is_lora then none else ds.bind DeviceStatusRow.ping_status
      ssh_status := if d.is_lora then none else ds.bind DeviceStatusRow.ssh_status
      last_data_time := ds.bind DeviceStatusRow.last_data_time }

/-- Response shape of `GET /last`. -/
structure LastResp where
  count : Nat
  devices : List LastEntry
deriving DecidableEq

/-- `GET /last` (src/main.py lines 278-315, `get_all_devices_status`). -/
def get_all_devices_status (db : DB) : LastResp :=
  let rows := statusJoin db
  { count := rows.length, devices := rows.map shapeLastEntry }

/-- One fetched row of the `GET /last/{system_id}` query (src/main.py lines
324-331); the handler returns the fetched rows themselves. -/
structure LastSysEntry where
  device_id : Int
  device_name : String
  system_id : Int
  system_name : String
  ip_address : Option String
  is_lora : Bool
  ping_status : Option String
  ssh_status : Option String
  last_data_time : Option Int
deriving DecidableEq

/-- The rows fetched by the `GET /last/{system_id}` query, before the
LoRa-nulling loop runs. -/
def fetchLastSys (db : DB) (system_id : Int) : List LastSysEntry :=
  (statusJoin db).filterMap fun r =>
    if r.1.system_id == system_id then
      some { device_id := r.1.id
             device_name := r.1.device_name
             system_id := r.1.system_id
             system_name := r.2.1.name
             ip_address := r.1.ip_address
             is_lora := r.1.is_lora
             ping_status := r.2.2.bind DeviceStatusRow.ping_status
             ssh_status := r.2.2.bind DeviceStatusRow.ssh_status
             last_data_time := r.2.2.bind DeviceStatusRow.last_data_time }
    else none

/-- The in-place mutation loop of `get_latest_device_status` (src/main.py
lines 338-342) applied to one fetched row. -/
def nullLoraFields (r : LastSysEntry) : LastSysEntry :=
  if r.is_lora then
    { r with ip_address := none, ping_status := none, ssh_status := none }
  else r

/-- `GET /last/{system_id}` (src/main.py lines 318-344,
`get_latest_device_status`): fetch the joined rows for the system, then null
the LoRa devices' `ip_address`/`ping_status`/`ssh_status` in place. -/
def get_latest_device_status (db : DB) (system_id : Int) : List LastSysEntry :=
  (fetchLastSys db system_id).map nullLoraFields

/-- One entry of the `GET /ip` response (src/main.py lines 365-377): stored
values are passed through with no LoRa nulling. -/
structure IpEntry where
  device_name : String
  facility_name : Option String
  system_name : String
  description : String
  ip : Option String
  ping_status : Option String
  ssh_status : Option String
deriving DecidableEq

/-- Response shape of `GET /ip`. -/
structure IpResp where
  total : Nat
  devices : List IpEntry
deriving DecidableEq

/-- `GET /ip` (src/main.py lines 347-378, `get_ip_devices_status`): the join
restricted by `WHERE d.ip_address IS NOT NULL`, shaped without any LoRa
special-casing. -/
def get_ip_devices_status (db : DB) : IpResp :=
  let rows := (statusJoin db).filter fun r => r.1.ip_address ≠ none
  { total := rows.length
    devices := rows.map fun r =>
      { device_name := r.1.device_name
        facility_name := r.1.facility_name
        system_name := r.2.1.name
        description := r.2.1.description
        ip := r.1.ip_address
        ping_status := r.2.2.bind DeviceStatusRow.ping_status
        ssh_status := r.2.2.bind DeviceStatusRow.ssh_status } }

/-- The fixed staleness threshold: `INTERVAL '5 days'`, in seconds. -/
def fiveDays : Int := 5 * 86400

/-- The active-device condition shared by the `/check` and
`/check/{system_id}` queries: `ds.last_data_time IS NOT NULL AND
ds.last_data_time >= NOW() - INTERVAL '5 days'`.  (In the grouped `/check`
query the `CASE WHEN ds.last_data_time >= ...` test is the same condition,
because a SQL comparison with NULL is not true.) -/
def activeCond (now : Int) : Option Int → Bool
  | none => false
  | some t => decide (now - fiveDays ≤ t)

/-- The inactive-device condition of the `/check` and `/check/{system_id}`
queries: `ds.last_data_time IS NULL OR ds.last_data_time < NOW() - INTERVAL
'5 days'`. -/
def inactiveCond (now : Int) : Option Int → Bool
  | none => true
  | some t => decide (t < now - fiveDays)

/-- The `last_data_time` values of the `device_status` rows joined to device
`d` by `LEFT JOIN device_status ds ON d.id = ds.device_id`: one `none` when
no status row matches, otherwise the matching rows' values. -/
def deviceStatusTimes (db : DB) (d : DeviceRow) : List (Option Int) :=
  match db.device_status.filter (fun ds => ds.device_id == d.id) with
  | [] => [none]
  | ms => ms.map DeviceStatusRow.last_data_time

/-- Rows of `FROM devices d LEFT JOIN device_status ds ON ds.device_id =
d.id`, keeping the columns the `/check` aggregates read: `d.id` and
`ds.last_data_time`. -/
def fleetJoin (db : DB) : List (Int × Option Int) :=
  db.devices.flatMap fun d => (deviceStatusTimes db d).map fun t => (d.id, t)

/-- Rows contributed to system `s`'s group by `FROM systems s LEFT JOIN
devices d ON s.id = d.system_id LEFT JOIN device_status ds ON d.id =
ds.device_id`, keeping the aggregated columns `d.id` (null when the system
has no devices) and `ds.last_data_time`. -/
def systemGroupRows (db : DB) (s : SystemRow) : List (Option Int × Option Int) :=
  match db.devices.filter (fun d => d.system_id == s.id) with
  | [] => [(none, none)]
  | ds => ds.flatMap fun d => (deviceStatusTimes db d).map fun t => (some d.id, t)

/-- One entry of the `systems` list in the `GET /check` response
(src/main.py lines 437-450). -/
structure SystemCheckEntry where
  system_id : Int
  system_name : String
  description : String
  system_total_devices : Int
  active_devices : Int
  inactive_devices : Int
deriving DecidableEq

/-- The grouped `/check` aggregates for one `systems` row (src/main.py lines
437-450): `COUNT(DISTINCT ...)` counts the distinct non-null values, and the
`CASE WHEN cond THEN d.id END` arguments are null unless `cond` holds.
(`GROUP BY s.id, s.name, s.description` yields one group per `systems` row
because `systems.id` is the table's primary key.) -/
def checkSystemEntry (db : DB) (now : Int) (s : SystemRow) : SystemCheckEntry :=
  let rows := systemGroupRows db s
  { system_id := s.id
    system_name := s.name
    description := s.description
    system_total_devices := ((rows.filterMap Prod.fst).dedup.length : Int)
    active_devices :=
      ((rows.filterMap fun r => if activeCond now r.2 then r.1 else none).dedup.length : Int)
    inactive_devices :=
      ((rows.filterMap fun r => if inactiveCond now r.2 then r.1 else none).dedup.length : Int) }

/-- Response shape of `GET /check`. -/
structure CheckResp where
  total_devices : Int
  active_devices : Int
  inactive_devices : Int
  systems : List SystemCheckEntry
deriving DecidableEq

/-- `GET /check` (src/main.py lines 414-463, `get_device_status_check`):
`total_devices` is `COUNT(*)` over `devices`; `active_devices` is
`COUNT(DISTINCT d.id)` over the left join restricted to the active
condition; `inactive_devices` is computed in Python as the difference; the
`systems` list is the grouped query ordered by `s.id`. -/
def get_device_status_check (db : DB) (now : Int) : CheckResp :=
  let total : Int := (db.devices.length : Int)
  let active : Int :=
    ((((fleetJoin db).filter fun r => activeCond now r.2).map Prod.fst).dedup.length : Int)
  { total_devices := total
    active_devices := active
    inactive_devices := total - active
    systems :=
      (db.systems.mergeSort fun a b => decide (a.id ≤ b.id)).map (checkSystemEntry db now) }

/-- One row of the active/inactive device lists of `GET /check/{system_id}`
(src/main.py lines 503-540): stored columns passed through unmodified. -/
structure CheckListEntry where
  device_id : Int
  device_name : String
  facility_name : Option String
  ip_address : Option String
  port : Option Int
  is_lora : Bool
  last_data_time : Option Int
  ping_status : Option String
  ssh_status : Option String
deriving DecidableEq

/-- Rows of `FROM devices d LEFT JOIN device_status ds ON ds.device_id =
d.id WHERE d.system_id = %s`. -/
def systemStatusJoin (db : DB) (system_id : Int) : List (DeviceRow × Option DeviceStatusRow) :=
  (db.devices.filter fun d => d.system_id == system_id).flatMap fun d =>
    match db.device_status.filter (fun ds => ds.device_id == d.id) with
    | [] => [(d, none)]
    | ms => ms.map fun ds => (d, some ds)

/-- The columns selected by the `/check/{system_id}` list queries for one
joined row. -/
def shapeCheckListEntry : DeviceRow × Option DeviceStatusRow → CheckListEntry
  | (d, ds) =>
    { device_id := d.id
      device_name := d.device_name
      facility_name := d.facility_name
      ip_address := d.ip_address
      port := d.port
      is_lora := d.is_lora
      last_data_time := ds.bind DeviceStatusRow.last_data_time
      ping_status := ds.bind DeviceStatusRow.ping_status
      ssh_status := ds.bind DeviceStatusRow.ssh_status }

/-- Response shape of `GET /check/{system_id}`. -/
structure CheckSystemResp where
  system_id : Int
  system_name : String
  total_devices : Int
  active_devices : Int
  inactive_devices : Int
  inactive_device_list : List CheckListEntry
  active_device_list : List CheckListEntry
deriving DecidableEq

/-- `GET /check/{system_id}` (src/main.py lines 467-554,
`get_device_status_check_system`).  The system lookup fetches one row of
`SELECT description FROM systems WHERE id = %s`; when it is absent the
handler raises 404 *without* closing the cursor or connection (lines
479-480 precede the close calls at lines 543-544), which the second
component records as `false`.  Otherwise: `total_devices` is `COUNT(*)` of
the system's devices, `active_devices` is `COUNT(*)` of the joined rows
passing the active condition, `inactive_devices` is the Python difference,
the two lists are the joined rows passing the inactive/active conditions,
and `"system_name"` is the fetched `description`. -/
def get_device_status_check_system (db : DB) (now : Int) (system_id : Int) :
    HandlerResult CheckSystemResp × Bool :=
  match db.systems.find? (fun s => s.id == system_id) with
  | none => (.httpError 404 (s!"System with ID {system_id} not found"), false)
  | some system =>
      let total : Int := ((db.devices.filter fun d => d.system_id == system_id).length : Int)
      let active : Int :=
        (((systemStatusJoin db system_id).filter fun r =>
            activeCond now (r.2.bind DeviceStatusRow.last_data_time)).length : Int)
      (.ok
        { system_id := system_id
          system_name := system.description
          total_devices := total
          active_devices := active
          inactive_devices := total - active
          inactive_device_list :=
            (((systemStatusJoin db system_id).filter fun r =>
                inactiveCond now (r.2.bind DeviceStatusRow.last_data_time)).map
              shapeCheckListEntry)
          active_device_list :=
            (((systemStatusJoin db system_id).filter fun r =>
                activeCond now (r.2.bind DeviceStatusRow.last_data_time)).map
              shapeCheckListEntry) }, true)

/-- `GET /time` (src/main.py lines 560-581, `get_update_time`): the query
orders `device_status_history` by `checked_at DESC` with `LIMIT 1` and the
handler subscripts `fetchone()` directly.  On an empty table `fetchone()`
is `None`, so `cursor.fetchone()["checked_at"]` raises `TypeError` before
the close calls: an unhandled fault with the connection left open. -/
def get_update_time (db : DB) : HandlerResult Int × Bool :=
  match (db.device_status_history.mergeSort fun a b => decide (b.checked_at ≤ a.checked_at)).head? with
  | none => (.fault "TypeError", false)
  | some row => (.ok row.checked_at, true)

/-- The fixed history window: 3 days, in seconds.  (`get_device_history`
formats `datetime.now() - timedelta(days=3)` with second precision; with
time modelled in whole seconds the cutoff is exactly `now - threeDays`.) -/
def threeDays : Int := 3 * 86400

/-- Response shape of `GET /device-history`. -/
structure HistoryResp where
  total : Nat
  history : List HistoryRow
deriving DecidableEq

/-- `GET /device-history` (src/main.py lines 586-611, `get_device_history`):
`WHERE checked_at >= now - 3 days ORDER BY checked_at ASC`, returned with
the row count as `"total"`. -/
def get_device_history (db : DB) (now : Int) : HistoryResp :=
  let rows :=
    (db.device_status_history.filter fun r => decide (now - threeDays ≤ r.checked_at)).mergeSort
      fun a b => decide (a.checked_at ≤ b.checked_at)
  { total := rows.length, history := rows }

/-! ## Concrete database states used by counterexamples and witnesses -/

/-- A LoRa device that nevertheless has a stored `ip_address`, reachable via
`POST /devices/` (which normalizes a blank IP but never nulls the IP of a
LoRa device). -/
def loraDevice : DeviceRow :=
  { id := 1
    system_id := 1
    device_name := "lora-01"
    ip_address := some "10.0.0.5"
    facility_name := some "yard"
    port := some 22
    is_lora := true
    is_use := some true }

/-- A database holding one LoRa device with stored IP, ping and SSH status. -/
def exDB1 : DB :=
  ⟨[⟨1, "SysA", "DescA"⟩], [loraDevice],
   [⟨1, some "ok", some "ok", some 1000⟩], []⟩

/-- A database holding one ordinary device with id 1. -/
def exDB2 : DB :=
  ⟨[⟨1, "SysA", "DescA"⟩],
   [{ id := 1, system_id := 1, device_name := "Gate-01", ip_address := none,
      facility_name := none, port := none, is_lora := false, is_use := none }],
   [], []⟩

/-- A database with one system (id 1), no devices and no history rows. -/
def exDB3 : DB := ⟨[⟨1, "SysA", "DescA"⟩], [], [], []⟩

/-- A request body whose optional fields are all absent or falsy. -/
def emptyBody : DeviceCreate := { system_id := 0, device_name := "" }

/-! ## Claims -/

/-- C2: a `PUT /devices/{device_id}` request on an existing device whose
body supplies no recognized update field is claimed to return 400 "No
fields to update" and leave the row unchanged.  On the code, the built
`update_fields` list is indeed empty, but before the emptiness check at
line 152 the handler evaluates `device.is_LoRa` (line 148), an attribute
the `DeviceCreate` model does not have, so the request faults with an
unhandled `AttributeError` (and a leaked connection) instead of returning
400; the stored row is unchanged. -/
theorem c2_update_device_faults_before_no_fields_check :
    update_device exDB2 1 emptyBody = (.fault "AttributeError", false, exDB2) ∧
    updateFieldNames emptyBody = [] := by
  constructor <;> rfl

/-- C3: the database connection is claimed to be closed on every exit path.
On the 404 path of `GET /check/{system_id}` and on the empty-history path
of `GET /time`, the handler raises before reaching its close calls: both
results below carry `false` in the connection-closed component. -/
theorem c3_connection_left_open_on_error_paths :
    get_device_status_check_system exDB3 0 999 =
      (.httpError 404 "System with ID 999 not found", false) ∧
    get_update_time exDB3 = (.fault "TypeError", false) := by
  constructor
  · rfl
  · simp [get_update_time, exDB3]

/-- C6: for a `device_id` matching no row of `devices`, both
`PUT /devices/{device_id}` and `DELETE /devices/{device_id}` return 404
with detail "Device not found", close the connection first, and leave the
database unchanged. -/
theorem c6_update_delete_nonexistent_404 (db : DB) (device_id : Int)
    (device : DeviceCreate) (h : ∀ d ∈ db.devices, d.id ≠ device_id) :
    update_device db device_id device = (.httpError 404 "Device not found", true, db) ∧
    delete_device db device_id = (.httpError 404 "Device not found", true, db) := by
  have hf : db.devices.find? (fun d => d.id == device_id) = none := by
    rw [List.find?_eq_none]
    intro d hd
    simpa using h d hd
  constructor <;> simp only [update_device, delete_device, hf]

/-- Witness for C6 at a concrete input: device id 7 in a database with no
devices. -/
theorem c6_update_delete_nonexistent_404_witness :
    update_device exDB3 7 emptyBody = (.httpError 404 "Device not found", true, exDB3) ∧
    delete_device exDB3 7 = (.httpError 404 "Device not found", true, exDB3) :=
  c6_update_delete_nonexistent_404 exDB3 7 emptyBody (by simp [exDB3])

/-- C7: `POST /devices/` returns the generated id together with
"Device added successfully" and appends the normalized row; an `ip_address`
that is empty or whitespace-only is stored as `none` (absent), never as an
empty string. -/
theorem c7_add_device_success_and_blank_ip (db : DB) (newId : Int)
    (device : DeviceCreate) (s : String) :
    add_device db newId device =
      (.ok (newId, "Device added successfully"), true,
       { db with devices := db.devices ++ [mkInsertedRow newId device] }) ∧
    (mkInsertedRow newId { device with ip_address := some s }).ip_address =
      (if pyStrip s = "" then none else some s) := by
  refine ⟨rfl, ?_⟩
  by_cases h : pyStrip s = ""
  · simp [mkInsertedRow, normalizeIp, h]
  · have hs : s ≠ "" := by
      intro he
      rw [he] at h
      exact h (by decide)
    simp [mkInsertedRow, normalizeIp, h, hs]

/-- C9: on a database whose `device_status_history` table is empty,
`GET /time` neither returns a value nor raises an `HTTPException`: the
subscript of `fetchone()`'s `None` result raises `TypeError`, an unhandled
fault, with the connection left open. -/
theorem c9_time_faults_on_empty_history (ss : List SystemRow)
    (dv : List DeviceRow) (st : List DeviceStatusRow) :
    get_update_time ⟨ss, dv, st, []⟩ = (.fault "TypeError", false) := by
  simp [get_update_time]

/-- C1 counterexample: in `exDB1` the device is LoRa (`is_lora = true`),
yet `GET /ip` returns its stored `ip_address`, `ping_status` and
`ssh_status` unmodified, and so does the `active_device_list` of
`GET /check/{system_id}`: the claimed nulling does not happen on these
endpoints. -/
theorem c1_counterexample :
    loraDevice.is_lora = true ∧
    (get_ip_devices_status exDB1).devices.map (fun r => (r.ip, r.ping_status, r.ssh_status)) =
      [(some "10.0.0.5", some "ok", some "ok")] ∧
    ((get_device_status_check_system exDB1 1000 1).1.okValue.map fun r =>
        r.active_device_list.map fun e => (e.ip_address, e.ping_status, e.ssh_status)) =
      some [(some "10.0.0.5", some "ok", some "ok")] := by
  refine ⟨rfl, rfl, rfl⟩

/-- A status-report entry whose LoRa fields are nulled whenever the entry
is for a LoRa device. -/
def loraNulled (r : LastEntry) : Bool :=
  !r.is_lora || (r.ip_address.isNone && r.ping_status.isNone && r.ssh_status.isNone)

/-- Same property for the row shape of `GET /last/{system_id}`. -/
def loraNulledSys (r : LastSysEntry) : Bool :=
  !r.is_lora || (r.ip_address.isNone && r.ping_status.isNone && r.ssh_status.isNone)

/-- C1 amended: the LoRa nulling holds on `GET /last` and
`GET /last/{system_id}` (for every database state and system id); on
`GET /ip` and in the device lists of `GET /check/{system_id}` the stored
values are returned unmodified (counterexample above). -/
theorem c1_amended_lora_nulling_on_last_endpoints (db : DB) (system_id : Int) :
    (get_all_devices_status db).devices.all loraNulled = true ∧
    (get_latest_device_status db system_id).all loraNulledSys = true := by
  constructor
  · simp only [get_all_devices_status, List.all_eq_true]
    intro e he
    obtain ⟨r, _, rfl⟩ := List.mem_map.mp he
    obtain ⟨d, s, ds⟩ := r
    by_cases h : d.is_lora <;> simp [shapeLastEntry, loraNulled, h]
  · simp only [get_latest_device_status, List.all_eq_true]
    intro e he
    obtain ⟨r, _, rfl⟩ := List.mem_map.mp he
    by_cases h : r.is_lora <;> simp [nullLoraFields, loraNulledSys, h]

/-- A database whose single system has `name = "Alpha"` and
`description = "Bravo"`, to separate the two columns. -/
def exDB10 : DB :=
  ⟨[⟨1, "Alpha", "Bravo"⟩],
   [{ id := 2, system_id := 1, device_name := "dev-02", ip_address := none,
      facility_name := none, port := none, is_lora := false, is_use := none }],
   [], []⟩

/-- C10: the `"system_name"` field of the `GET /devices/` entries and of the
`GET /check/{system_id}` response is populated from `systems.description`,
not from `systems.name`: the shaping function always copies `description`,
and on `exDB10` (where `name = "Alpha"` and `description = "Bravo"`) both
endpoints report `"Bravo"`. -/
theorem c10_system_name_is_description (d : DeviceRow) (s : SystemRow) (db : DB)
    (now system_id : Int) (sys : SystemRow)
    (hfind : db.systems.find? (fun x => x.id == system_id) = some sys) :
    (shapeDevicesEntry (d, s)).system_name = s.description ∧
    ((get_device_status_check_system db now system_id).1.okValue.map
        CheckSystemResp.system_name) = some sys.description ∧
    (get_devices exDB10).devices.map DevicesEntry.system_name = ["Bravo"] := by
  refine ⟨rfl, ?_, rfl⟩
  rw [get_device_status_check_system.eq_def, hfind]
  rfl

/-- Witness for C10 at a concrete input. -/
theorem c10_system_name_is_description_witness :
    (shapeDevicesEntry (loraDevice, ⟨1, "Alpha", "Bravo"⟩)).system_name = "Bravo" ∧
    ((get_device_status_check_system exDB10 0 1).1.okValue.map
        CheckSystemResp.system_name) = some "Bravo" ∧
    (get_devices exDB10).devices.map DevicesEntry.system_name = ["Bravo"] :=
  c10_system_name_is_description loraDevice ⟨1, "Alpha", "Bravo"⟩ exDB10 0 1
    ⟨1, "Alpha", "Bravo"⟩ rfl

/-- A database with one device exactly one second beyond the 5-day
staleness threshold (`now - 5 days - 1 second`) and one device inside it
(`now - 4 days`). -/
def c5db (now : Int) : DB :=
  ⟨[⟨1, "SysA", "DescA"⟩],
   [{ id := 1, system_id := 1, device_name := "stale", ip_address := none,
      facility_name := none, port := none, is_lora := false, is_use := none },
    { id := 2, system_id := 1, device_name := "fresh", ip_address := none,
      facility_name := none, port := none, is_lora := false, is_use := none }],
   [⟨1, none, none, some (now - 5 * 86400 - 1)⟩,
    ⟨2, none, none, some (now - 4 * 86400)⟩],
   []⟩

/-- C5: the active/inactive classification used by `GET /check` and
`GET /check/{system_id}` holds exactly when `last_data_time` is non-null
and at least `now - 5 days`; `now - 5 days - 1 second` classifies inactive
and `now - 4 days` active, both as a property of the shared condition and
on the `GET /check/{system_id}` response for a database holding one device
on each side of the boundary. -/
theorem c5_active_classification (now t : Int) :
    (activeCond now (some t) = true ↔ now - 5 * 86400 ≤ t) ∧
    activeCond now none = false ∧
    activeCond now (some (now - 5 * 86400 - 1)) = false ∧
    activeCond now (some (now - 4 * 86400)) = true ∧
    inactiveCond now (some t) = !activeCond now (some t) ∧
    inactiveCond now none = !activeCond now none ∧
    ((get_device_status_check_system (c5db now) now 1).1.okValue.map fun r =>
        (r.active_devices, r.inactive_devices,
         r.active_device_list.map CheckListEntry.device_id,
         r.inactive_device_list.map CheckListEntry.device_id)) =
      some (1, 1, [2], [1]) := by
  have hstale : activeCond now (some (now - 5 * 86400 - 1)) = false := by
    simp only [activeCond, fiveDays, decide_eq_false_iff_not]
    omega
  have hfresh : activeCond now (some (now - 4 * 86400)) = true := by
    simp only [activeCond, fiveDays, decide_eq_true_eq]
    omega
  have histale : inactiveCond now (some (now - 5 * 86400 - 1)) = true := by
    simp only [inactiveCond, fiveDays, decide_eq_true_eq]
    omega
  have hifresh : inactiveCond now (some (now - 4 * 86400)) = false := by
    simp only [inactiveCond, fiveDays, decide_eq_false_iff_not]
    omega
  refine ⟨?_, rfl, hstale, hfresh, ?_, rfl, ?_⟩
  · simp [activeCond, fiveDays]
  · simp only [inactiveCond, activeCond, fiveDays, Bool.eq_not_iff, ne_eq,
      decide_eq_decide]
    omega
  · have h1 : activeCond now (some (now - 432000 - 1)) = false := by
      simp only [activeCond, fiveDays, decide_eq_false_iff_not]
      omega
    have h2 : activeCond now (some (now - 345600)) = true := by
      simp only [activeCond, fiveDays, decide_eq_true_eq]
      omega
    have h3 : inactiveCond now (some (now - 432000 - 1)) = true := by
      simp only [inactiveCond, fiveDays, decide_eq_true_eq]
      omega
    have h4 : inactiveCond now (some (now - 345600)) = false := by
      simp only [inactiveCond, fiveDays, decide_eq_false_iff_not]
      omega
    simp [get_device_status_check_system.eq_def, c5db, systemStatusJoin,
      deviceStatusTimes, h1, h2, h3, h4, shapeCheckListEntry, HandlerResult.okValue]

/-- C8: `GET /device-history` returns exactly the `device_status_history`
rows with `checked_at ≥ now - 3 days` (as a permutation of the filtered
table), in ascending `checked_at` order, together with their count as
`total`. -/
theorem c8_device_history_window (db : DB) (now : Int) :
    (get_device_history db now).history.Perm
      (db.device_status_history.filter fun r => decide (now - 3 * 86400 ≤ r.checked_at)) ∧
    (get_device_history db now).history.Pairwise
      (fun a b => a.checked_at ≤ b.checked_at) ∧
    (get_device_history db now).total = (get_device_history db now).history.length := by
  refine ⟨?_, ?_, rfl⟩
  · simp only [get_device_history, threeDays]
    exact List.mergeSort_perm _ _
  · simp only [get_device_history]
    have hp := @List.sorted_mergeSort HistoryRow
      (fun a b => decide (a.checked_at ≤ b.checked_at))
      (fun a b c hab hbc => by
        simp only [decide_eq_true_eq] at hab hbc ⊢
        omega)
      (fun a b => by
        simp only [Bool.or_eq_true, decide_eq_true_eq]
        omega)
      (db.device_status_history.filter fun r => decide (now - threeDays ≤ r.checked_at))
    exact hp.imp fun h => by simpa using h

/-! ## Supporting lemmas for the `/check` aggregation (C4) -/

/-- When the mapped keys of a list are pairwise distinct, filtering by a key
keeps at most the first match. -/
theorem filter_key_eq_find_toList (l : List DeviceStatusRow) (i : Int)
    (h : (l.map DeviceStatusRow.device_id).Nodup) :
    l.filter (fun ds => ds.device_id == i) =
      (l.find? (fun ds => ds.device_id == i)).toList := by
  induction l with
  | nil => rfl
  | cons a t ih =>
    simp only [List.map_cons, List.nodup_cons, List.mem_map] at h
    by_cases ha : a.device_id = i
    · have ht : t.filter (fun ds => ds.device_id == i) = [] := by
        rw [List.filter_eq_nil_iff]
        intro b hb
        simp only [beq_iff_eq]
        intro hbi
        exact h.1 ⟨b, hb, by rw [hbi, ha]⟩
      simp [List.filter_cons, List.find?_cons, ha, ht]
    · simp [List.filter_cons, List.find?_cons, ha, ih h.2]

/-- The `last_data_time` joined to the device with id `i`, when each device
has at most one `device_status` row. -/
def ldtOf (db : DB) (i : Int) : Option Int :=
  (db.device_status.find? (fun ds => ds.device_id == i)).bind DeviceStatusRow.last_data_time

/-- With unique `device_status.device_id`, the left join pairs each device
with exactly one `last_data_time` value. -/
theorem deviceStatusTimes_eq (db : DB)
    (hst : (db.device_status.map DeviceStatusRow.device_id).Nodup) (d : DeviceRow) :
    deviceStatusTimes db d = [ldtOf db d.id] := by
  unfold deviceStatusTimes ldtOf
  rw [filter_key_eq_find_toList _ _ hst]
  cases db.device_status.find? (fun ds => ds.device_id == d.id) with
  | none => rfl
  | some st => rfl

/-- A `flatMap` whose function yields singletons is a `map`. -/
theorem flatMap_eq_map_of_singleton {α β : Type} (l : List α) (g : α → β)
    (f : α → List β) (h : ∀ a, f a = [g a]) : l.flatMap f = l.map g := by
  induction l with
  | nil => rfl
  | cons a t ih => simp [h, ih]

/-- `COUNT(DISTINCT CASE WHEN p THEN key END)` over the singleton-join rows:
the non-null case values are the keys of the rows passing `p`. -/
theorem filterMap_case_over_map {α : Type} (devs : List α) (key : α → Int)
    (w : α → Option Int) (p : Option Int → Bool) :
    ((devs.map fun d => ((some (key d) : Option Int), w d)).filterMap fun r =>
        if p r.2 then r.1 else none) =
      (devs.filter fun d => p (w d)).map key := by
  induction devs with
  | nil => rfl
  | cons a t ih =>
    by_cases h : p (w a) <;> simp [List.filterMap_cons, List.filter_cons, h, ih]

/-- `COUNT(DISTINCT key)` over the singleton-join rows: the non-null keys
are all the keys. -/
theorem filterMap_fst_over_map {α : Type} (devs : List α) (key : α → Int)
    (w : α → Option Int) :
    ((devs.map fun d => ((some (key d) : Option Int), w d)).filterMap Prod.fst) =
      devs.map key := by
  induction devs with
  | nil => rfl
  | cons a t ih => simp [List.filterMap_cons, ih]

/-- The inactive condition is the negation of the active condition. -/
theorem inactiveCond_eq_not_activeCond (now : Int) (o : Option Int) :
    inactiveCond now o = !activeCond now o := by
  cases o with
  | none => rfl
  | some t =>
    simp only [inactiveCond, activeCond, Bool.eq_not_iff, ne_eq, decide_eq_decide]
    omega

/-- Per-system conjunct of C4: in every grouped `/check` entry the
`inactive_devices` aggregate equals `system_total_devices - active_devices`,
provided `devices.id` and `device_status.device_id` are unique (both are
key columns: `id` is the primary key and `device_status` holds one row per
device). -/
theorem checkSystemEntry_partition (db : DB) (now : Int) (s : SystemRow)
    (hd : (db.devices.map DeviceRow.id).Nodup)
    (hst : (db.device_status.map DeviceStatusRow.device_id).Nodup) :
    (checkSystemEntry db now s).inactive_devices =
      (checkSystemEntry db now s).system_total_devices -
        (checkSystemEntry db now s).active_devices := by
  have hdevs : ((db.devices.filter fun d => d.system_id == s.id).map DeviceRow.id).Nodup :=
    List.Nodup.sublist ((List.filter_sublist _).map _) hd
  simp only [checkSystemEntry]
  cases hfil : db.devices.filter (fun d => d.system_id == s.id) with
  | nil =>
    have hsg : systemGroupRows db s = [((none : Option Int), (none : Option Int))] := by
      unfold systemGroupRows
      rw [hfil]
    rw [hsg]
    simp [activeCond, inactiveCond]
  | cons d0 ds =>
    rw [hfil] at hdevs
    have hrows : ((d0 :: ds).flatMap fun d =>
        (deviceStatusTimes db d).map fun t => ((some d.id : Option Int), t)) =
        (d0 :: ds).map fun d => ((some d.id : Option Int), ldtOf db d.id) :=
      flatMap_eq_map_of_singleton _ _ _ fun d => by
        rw [deviceStatusTimes_eq db hst]
        rfl
    have hsg : systemGroupRows db s =
        (d0 :: ds).map fun d => ((some d.id : Option Int), ldtOf db d.id) := by
      unfold systemGroupRows
      rw [hfil]
      exact hrows
    rw [hsg,
      filterMap_fst_over_map (d0 :: ds) DeviceRow.id (fun d => ldtOf db d.id),
      filterMap_case_over_map (d0 :: ds) DeviceRow.id (fun d => ldtOf db d.id)
        (activeCond now),
      filterMap_case_over_map (d0 :: ds) DeviceRow.id (fun d => ldtOf db d.id)
        (inactiveCond now)]
    have hnda : (((d0 :: ds).filter fun d => activeCond now (ldtOf db d.id)).map
        DeviceRow.id).Nodup :=
      List.Nodup.sublist ((List.filter_sublist _).map _) hdevs
    have hndi : (((d0 :: ds).filter fun d => inactiveCond now (ldtOf db d.id)).map
        DeviceRow.id).Nodup :=
      List.Nodup.sublist ((List.filter_sublist _).map _) hdevs
    rw [List.Nodup.dedup hdevs, List.Nodup.dedup hnda, List.Nodup.dedup hndi,
      List.length_map, List.length_map, List.length_map]
    have hcongr : ((d0 :: ds).filter fun d => inactiveCond now (ldtOf db d.id)) =
        ((d0 :: ds).filter fun d => !activeCond now (ldtOf db d.id)) :=
      List.filter_congr fun d _ => inactiveCond_eq_not_activeCond now _
    have hpart :=
      @List.length_eq_length_filter_add DeviceRow (d0 :: ds)
        fun d => activeCond now (ldtOf db d.id)
    rw [hcongr]
    omega

/-- C4: the `GET /check` response satisfies
`inactive_devices = total_devices - active_devices` at the fleet level, and
every entry of its `systems` list satisfies
`inactive_devices = system_total_devices - active_devices`, provided the
key columns `devices.id` and `device_status.device_id` are unique. -/
theorem c4_check_inactive_eq_total_sub_active (db : DB) (now : Int)
    (hd : (db.devices.map DeviceRow.id).Nodup)
    (hst : (db.device_status.map DeviceStatusRow.device_id).Nodup) :
    (get_device_status_check db now).inactive_devices =
      (get_device_status_check db now).total_devices -
        (get_device_status_check db now).active_devices ∧
    ∀ e ∈ (get_device_status_check db now).systems,
      e.inactive_devices = e.system_total_devices - e.active_devices := by
  refine ⟨rfl, ?_⟩
  intro e he
  simp only [get_device_status_check, List.mem_map] at he
  obtain ⟨s, _, rfl⟩ := he
  exact checkSystemEntry_partition db now s hd hst

/-- Witness for C4 at a concrete input: the fleet-level equation on a
database holding one stale-status device, with both uniqueness hypotheses
discharged by computation. -/
theorem c4_check_inactive_eq_total_sub_active_witness :
    (get_device_status_check exDB1 1000000).inactive_devices =
      (get_device_status_check exDB1 1000000).total_devices -
        (get_device_status_check exDB1 1000000).active_devices :=
  (c4_check_inactive_eq_total_sub_active exDB1 1000000 (by decide) (by decide)).1

end IotBackend
